import Mathlib

/-!
Verification development for the `cf-convert-html-markdown` worker.

The repository is a Cloudflare Worker (`src/index.ts`, with two near-duplicate
variants shipped alongside: `worker-md-final.ts` and
`worker-md-accept-presence-logs.ts`) that converts HTML pages fetched from an
origin into Markdown via an external `AI.toMarkdown` capability and caches the
result in an R2 object store for up to 90 days.

Shallow embedding conventions:
  * JavaScript strings are embedded as `List Char` (`JsStr`).  String literals
    appear as `"...".data`.
  * The external world (object store contents, origin fetch outcome, converter
    outcome, whether each store write throws) is a `World` record; the handler
    is a pure function of the request and the world.
  * `try { ... } catch` is embedded by routing each possible throw site to the
    catch-handler's response; an exception raised outside the `try` block is
    the distinguished outcome `Outcome.uncaught`.
  * The response model keeps exactly the observables the verified properties
    mention: status, the explicitly-set `Content-Type` header, the body, and
    the `X-Cache` header.  (Per the Fetch standard, a response constructed
    from a string body with no explicit `Content-Type` gets the default
    `text/plain;charset=UTF-8` on the wire; the model records such responses
    with `contentType = none`.)
  * Store side effects are tracked in `Effects`: how many times the store was
    queried, how many origin fetches were attempted, how many converter
    invocations happened, and the list of performed writes (key, payload,
    content type).  Raw origin bytes (`ArrayBuffer` in the source) and
    converter text (JS string) are kept apart by the `Payload` type, exactly
    as they are distinct value kinds in the source.
-/

namespace MdWorker

/-- JavaScript strings, embedded as lists of characters. -/
abbrev JsStr := List Char

/-- ASCII lowering, matching `String.prototype.toLowerCase` / the regex `i`
flag on the ASCII range used by the worker's constants. -/
def lowerStr (s : JsStr) : JsStr := s.map Char.toLower

/-- The conversion suffix `".md"` (source: `pathname.endsWith('.md')`). -/
def mdSuffix : JsStr := ['.', 'm', 'd']

/-- `pathname.endsWith('.md')` from the source. -/
def endsWithMd (s : JsStr) : Bool := mdSuffix.isSuffixOf s

/-- `pathname.replace(/^\//, '')` — the regex removes at most one leading
slash. -/
def dropOneLeadingSlash (s : JsStr) : JsStr :=
  match s with
  | [] => []
  | c :: rest => if c = '/' then rest else c :: rest

/-- The last element of `pre`, or `prev` when `pre` is empty.  Used to talk
about the character immediately preceding a match position. -/
def lastOr (prev : Option Char) : List Char → Option Char
  | [] => prev
  | c :: rest => lastOr (some c) rest

/-- `s.replace(/\/$/, '')` — removes at most one trailing slash. -/
def dropOneTrailingSlash (s : JsStr) : JsStr :=
  if lastOr none s = some '/' then s.dropLast else s

/-- `pathname.slice(0, -3)` on a path (drops the final three characters). -/
def dropLast3 (s : JsStr) : JsStr := s.dropLast.dropLast.dropLast

/-- JavaScript word characters, `\w = [A-Za-z0-9_]`, as used by the `\b`
assertions in the worker's Accept-header regex. -/
def isWordChar (c : Char) : Bool := c.isAlphanum || c == '_'

/-- A `\b` assertion sitting immediately before a word character: satisfied at
the string start or after a non-word character. -/
def boundaryBefore : Option Char → Bool
  | none => true
  | some c => !isWordChar c

/-- A `\b` assertion sitting immediately after a word character: satisfied at
the string end or before a non-word character. -/
def boundaryAfter : List Char → Bool
  | [] => true
  | c :: _ => !isWordChar c

/-- The needle matches at the current position and the position after it
satisfies `\b`. -/
def matchAtHere (needle s : JsStr) : Bool :=
  needle.isPrefixOf s && boundaryAfter (s.drop needle.length)

/-- Scan of `/\bneedle\b/` over the remaining haystack, carrying the character
just before the current position (for the leading `\b`). -/
def hasTokenFrom (needle : JsStr) (prev : Option Char) : JsStr → Bool
  | [] => false
  | c :: rest =>
      (boundaryBefore prev && matchAtHere needle (c :: rest)) ||
        hasTokenFrom needle (some c) rest

/-- `/\bneedle\b/.test(s)` for a needle whose first and last characters are
word characters (true of both needles the worker uses). -/
def hasToken (needle s : JsStr) : Bool := hasTokenFrom needle none s

/-- The needle `text/markdown` of the worker's Accept regex. -/
def mdNeedle : JsStr := "text/markdown".data

/-- The needle `text/plain` of the worker's Accept regex. -/
def plainNeedle : JsStr := "text/plain".data

/-- Source (`src/index.ts` lines 20–24):
```
function prefersMarkdownByPresence(acceptHeader: string | null): boolean {
  if (!acceptHeader) return false;
  return /(?:\btext\/markdown\b|\btext\/plain\b)/i.test(acceptHeader);
}
```
`!acceptHeader` is truthy for `null` and for the empty string.  The `i` flag
is embedded by lowering the haystack (the needles are already lowercase). -/
def prefersMarkdownByPresence (acceptHeader : Option JsStr) : Bool :=
  match acceptHeader with
  | none => false
  | some s =>
      if s.isEmpty then false
      else hasToken mdNeedle (lowerStr s) || hasToken plainNeedle (lowerStr s)

/-- Declarative token occurrence, used to state the corrected form of the
header-trigger claim: the (lowered) haystack decomposes around the needle with
a `\b`-style boundary on each side. -/
def TokenOccurs (needle hay : JsStr) : Prop :=
  ∃ pre post, hay = pre ++ needle ++ post ∧
    boundaryBefore (lastOr none pre) = true ∧ boundaryAfter post = true

/-- Request URLs, abstracted to the components the worker manipulates.  The
worker only ever rewrites `pathname` on a clone of the request URL
(`sourceUrl.pathname = ...`); origin and query ride along unchanged. -/
structure Url where
  origin : JsStr
  path : JsStr
  query : JsStr
deriving DecidableEq

/-- Source (`src/index.ts` lines 63–73): derives the R2 key and the source
URL from the decoded path.
```
let key: string;
const sourceUrl = new URL(request.url);
if (isMdPath) {
  key = pathname.replace(/^\//, '');
  sourceUrl.pathname = pathname.slice(0, -3);
} else {
  const base = pathname.replace(/^\//, '').replace(/\/$/, '') || 'index';
  key = `${base}.md`;
}
```
(`|| 'index'` fires exactly when the stripped path is the empty string.) -/
def resolveKeyTarget (reqUrl : Url) (pathname : JsStr) : JsStr × Url :=
  if endsWithMd pathname then
    (dropOneLeadingSlash pathname, { reqUrl with path := dropLast3 pathname })
  else
    let base0 := dropOneTrailingSlash (dropOneLeadingSlash pathname)
    let base := if base0.isEmpty then "index".data else base0
    (base ++ mdSuffix, reqUrl)

/-- A cached object returned by `MARKDOWN_BUCKET.get(key)`.
`uploadedAt = some t` models `existing.uploaded instanceof Date` with epoch
milliseconds `t`; `none` models an `uploaded` that is absent or not a `Date`.
`contentType = none` models a missing `httpMetadata?.contentType`. -/
structure CachedObject where
  uploadedAt : Option Int
  contentType : Option JsStr
  body : JsStr
deriving DecidableEq

/-- An origin response (after redirects): status, status text, the raw
`content-type` header if any, and the body bytes. -/
structure UpstreamResponse where
  status : Nat
  statusText : JsStr
  contentTypeHeader : Option JsStr
  body : JsStr
deriving DecidableEq

/-- `fetch` semantics: `response.ok` is true exactly for 2xx statuses. -/
def respOk (r : UpstreamResponse) : Bool := decide (200 ≤ r.status ∧ r.status ≤ 299)

/-- Outcome of `await fetch(target, ...)`: a settled response, or a thrown
transport error (rendered by `String(err)` as `msg`). -/
inductive UpstreamOutcome where
  | resp (r : UpstreamResponse)
  | throwErr (msg : JsStr)
deriving DecidableEq

/-- Outcome of `await env.AI.toMarkdown([...])`: a result array whose first
entry has a string `data` field (`valid`), any other shape (`invalid`), or a
thrown error. -/
inductive AiOutcome where
  | valid (data : JsStr)
  | invalid
  | throwErr (msg : JsStr)
deriving DecidableEq

/-- The external world one request runs against.  `stored` is the object the
store holds at the request's cache key (the handler reads a single key per
run).  The `put*Fail` fields are `some msg` when the corresponding
`MARKDOWN_BUCKET.put` throws (with `String(err) = msg`), `none` when it
succeeds. -/
structure World where
  bucketConfigured : Bool
  stored : Option CachedObject
  now : Int
  upstream : UpstreamOutcome
  ai : AiOutcome
  putPrimaryFail : Option JsStr
  putQuarantineFail : Option JsStr
  putHtmlFail : Option JsStr
deriving DecidableEq

/-- One incoming request.  `pathDecode` is the result of
`decodeURIComponent(url.pathname || '/')`: `some p` when decoding succeeds
with decoded path `p`, `none` when it throws (malformed percent sequence,
e.g. a raw path `/%zz.md`).  The boolean flags model
`url.searchParams.get('x') === '1'`. -/
structure RequestModel where
  url : Url
  pathDecode : Option JsStr
  accept : Option JsStr
  debug : Bool
  refresh : Bool
  saveHtml : Bool
  reqId : JsStr
deriving DecidableEq

/-- A value written to the object store: raw bytes (`ArrayBuffer` in the
source, used for the HTML snapshot) or text (the converter output). -/
inductive Payload where
  | bytes (b : JsStr)
  | text (s : JsStr)
deriving DecidableEq

/-- One performed `MARKDOWN_BUCKET.put`. -/
structure StoreWrite where
  key : JsStr
  payload : Payload
  contentType : JsStr
deriving DecidableEq

/-- The observables of a composed response that the verified properties
mention: status, the explicitly-set `Content-Type` header (`none` when the
code sets none), the body, and the `X-Cache` header. -/
structure Resp where
  status : Nat
  contentType : Option JsStr
  body : JsStr
  xCache : Option JsStr
deriving DecidableEq

/-- Side effects of one run: store reads, origin fetch attempts, converter
invocations, and performed store writes in order. -/
structure Effects where
  storeGets : Nat
  originFetches : Nat
  aiCalls : Nat
  writes : List StoreWrite
deriving DecidableEq

/-- Result of one handler run: a composed response together with its side
effects, a pass-through proxy of the origin (untriggered requests), or an
exception that escaped the handler. -/
inductive Outcome where
  | response (r : Resp) (eff : Effects)
  | proxied
  | uncaught
deriving DecidableEq

/-- The writes performed by an outcome. -/
def Outcome.writesOf : Outcome → List StoreWrite
  | .response _ eff => eff.writes
  | _ => []

/-- The converter invocations performed by an outcome. -/
def Outcome.aiCallsOf : Outcome → Nat
  | .response _ eff => eff.aiCalls
  | _ => 0

/-- Content-type constants from the source. -/
def plainCt : JsStr := "text/plain; charset=utf-8".data

/-- `text/markdown; charset=utf-8`, the content type of stored and served
markdown. -/
def mdCtFull : JsStr := "text/markdown; charset=utf-8".data

/-- The prefix tested by `contentType.toLowerCase().startsWith('text/markdown')`. -/
def mdCtNeedle : JsStr := "text/markdown".data

/-- The fallback `'text/html'` for a missing origin content type. -/
def htmlCt : JsStr := "text/html".data

/-- `MAX_AGE_MS = 90 * 24 * 60 * 60 * 1000` (src/index.ts line 13). -/
def maxAgeMs : Int := 90 * 24 * 60 * 60 * 1000

/-- JavaScript `||` on strings: the right operand is used when the left is
absent or empty (empty strings are falsy). -/
def jsOr (o : Option JsStr) (dflt : JsStr) : JsStr :=
  match o with
  | none => dflt
  | some s => if s.isEmpty then dflt else s

/-- `s.split(';')[0]`: everything before the first `';'`. -/
def takeBeforeSemicolon (s : JsStr) : JsStr := s.takeWhile (fun c => c != ';')

/-- Whitespace removed by `String.prototype.trim` (the ASCII part; the worker
only inspects the first non-blank character). -/
def isJsSpace (c : Char) : Bool :=
  c == ' ' || c == '\t' || c == '\n' || c == '\r' || c == '\x0b' || c == '\x0c'

/-- `markdown.trim().startsWith('<')`: the first non-whitespace character is
`'<'`. -/
def trimStartsWithLt (s : JsStr) : Bool :=
  match s.dropWhile isJsSpace with
  | '<' :: _ => true
  | _ => false

/-- Decimal rendering of a status code, as in the template literal
`${upstream.status}`. -/
def natToStr (n : Nat) : JsStr := (Nat.repr n).data

/-- Body of the outer-catch response of `src/index.ts` (line 189):
`Internal Server Error\nRequest ID: ${reqId}\n${String(err)}`. -/
def catchBody (reqId msg : JsStr) : JsStr :=
  "Internal Server Error\nRequest ID: ".data ++ reqId ++ "\n".data ++ msg

/-- The outer-catch response of `src/index.ts` (lines 184–190): status 500,
`Content-Type: text/plain; charset=utf-8`, correlation id in the body. -/
def catchRespV1 (reqId msg : JsStr) : Resp :=
  { status := 500, contentType := some plainCt, body := catchBody reqId msg, xCache := none }

/-- The outer-catch response of the `worker-md-accept-presence-logs` variant
(part_002 line 188): `new Response(String(err), { status: 500 })` — status
500, no explicit content type, no correlation id in the body. -/
def catchRespV2 (msg : JsStr) : Resp :=
  { status := 500, contentType := none, body := msg, xCache := none }

/-- Source (`src/index.ts` lines 83–101): the R2 cache check.  Returns the
stored object when it is served (fresh and markdown-typed), `none` when the
pipeline proceeds to regeneration.
```
if (env.MARKDOWN_BUCKET && !forceRefresh) {
  const existing = await env.MARKDOWN_BUCKET.get(key);
  if (existing) {
    const uploaded = existing.uploaded instanceof Date ? existing.uploaded.getTime() : null;
    const contentType = existing.httpMetadata?.contentType ?? '';
    const ageOk = uploaded !== null && Date.now() - uploaded < MAX_AGE_MS;
    const isMarkdownCT = typeof contentType === 'string' && contentType.toLowerCase().startsWith('text/markdown');
    if (existing && ageOk && isMarkdownCT) { ... return cached ... }
  }
}
```
The identical lines appear in part_002 (82–102); part_001 (77–107) has the
same validation. -/
def cacheHit (req : RequestModel) (w : World) : Option CachedObject :=
  if w.bucketConfigured && !req.refresh then
    match w.stored with
    | some existing =>
        let ageOk := match existing.uploadedAt with
          | none => false
          | some t => decide (w.now - t < maxAgeMs)
        let contentType := existing.contentType.getD []
        let isMarkdownCT := mdCtNeedle.isPrefixOf (lowerStr contentType)
        if ageOk && isMarkdownCT then some existing else none
    | none => none
  else none

/-- Number of `MARKDOWN_BUCKET.get` calls a run performs (the guard of
`src/index.ts` line 83). -/
def storeGetCount (req : RequestModel) (w : World) : Nat :=
  if w.bucketConfigured && !req.refresh then 1 else 0

/-- The cache-hit response of `src/index.ts` (lines 90–98): status 200 with
`X-Cache: r2` — note that this branch sets no `Content-Type` header. -/
def hitResponseV1 (obj : CachedObject) : Resp :=
  { status := 200, contentType := none, body := obj.body, xCache := some "r2".data }

/-- The cache-hit response of the part_002 variant (lines 90–100), which does
set `Content-Type: text/markdown; charset=utf-8`. -/
def hitResponseV2 (obj : CachedObject) : Resp :=
  { status := 200, contentType := some mdCtFull, body := obj.body, xCache := some "r2".data }

/-- The HTML snapshot writes performed when `?saveHtml=1` (src/index.ts lines
123–134); the `put` is wrapped in `try`/`catch`, so a throwing put performs no
write and is otherwise ignored. -/
def htmlSnapshotWrites (req : RequestModel) (w : World) (key upstreamCT bodyBytes : JsStr) :
    List StoreWrite :=
  if req.saveHtml && w.bucketConfigured && w.putHtmlFail.isNone then
    [{ key := key ++ ".source.html".data, payload := .bytes bodyBytes, contentType := upstreamCT }]
  else []

/-- Source (`src/index.ts` lines 103–183): the conversion pipeline of the
main worker — origin fetch, optional HTML snapshot, converter call, the
HTML-looking-output quarantine, and the primary cache write.  Throws from the
origin fetch or the converter reach the outer catch (lines 184–190); the
snapshot put, the quarantine put and the primary put each sit in their own
`try`/`catch` and are non-fatal. -/
def convertPhase (req : RequestModel) (w : World) (key : JsStr) (gets : Nat) : Outcome :=
  match w.upstream with
  | .throwErr msg =>
      .response (catchRespV1 req.reqId msg)
        { storeGets := gets, originFetches := 1, aiCalls := 0, writes := [] }
  | .resp up =>
      if !respOk up then
        .response
          { status := 502, contentType := none,
            body := "Upstream fetch failed: ".data ++ natToStr up.status
              ++ " ".data ++ up.statusText,
            xCache := none }
          { storeGets := gets, originFetches := 1, aiCalls := 0, writes := [] }
      else
        let upstreamCT := takeBeforeSemicolon (jsOr up.contentTypeHeader htmlCt)
        let htmlWrites := htmlSnapshotWrites req w key upstreamCT up.body
        match w.ai with
        | .throwErr msg =>
            .response (catchRespV1 req.reqId msg)
              { storeGets := gets, originFetches := 1, aiCalls := 1, writes := htmlWrites }
        | .invalid =>
            .response
              { status := 500, contentType := none,
                body := "AI conversion failed".data, xCache := none }
              { storeGets := gets, originFetches := 1, aiCalls := 1, writes := htmlWrites }
        | .valid markdown =>
            if trimStartsWithLt markdown then
              let qWrites :=
                if w.bucketConfigured && w.putQuarantineFail.isNone then
                  [{ key := key ++ ".ai-failed.txt".data, payload := .text markdown,
                     contentType := plainCt }]
                else []
              .response
                { status := 200, contentType := some plainCt, body := markdown, xCache := none }
                { storeGets := gets, originFetches := 1, aiCalls := 1,
                  writes := htmlWrites ++ qWrites }
            else
              let pWrites :=
                if w.bucketConfigured && w.putPrimaryFail.isNone then
                  [{ key := key, payload := .text markdown, contentType := mdCtFull }]
                else []
              .response
                { status := 200, contentType := some mdCtFull, body := markdown,
                  xCache := some (if w.bucketConfigured then "miss,r2-updated".data
                    else "miss,no-r2".data) }
                { storeGets := gets, originFetches := 1, aiCalls := 1,
                  writes := htmlWrites ++ pWrites }

/-- Source (`src/index.ts` fetch handler, lines 27–191).  The request
prologue (URL parse, `decodeURIComponent`, flag reads, trigger decision,
key/target resolution) runs before the `try` block that starts at line 81, so
a percent-decoding error there escapes the handler (`Outcome.uncaught`). -/
def fetchHandler (req : RequestModel) (w : World) : Outcome :=
  match req.pathDecode with
  | none => .uncaught
  | some pathname =>
      let acceptPrefers := prefersMarkdownByPresence req.accept
      let isMdPath := endsWithMd pathname
      if !acceptPrefers && !isMdPath then
        .proxied
      else
        let key := (resolveKeyTarget req.url pathname).1
        let gets := storeGetCount req w
        match cacheHit req w with
        | some obj =>
            .response (hitResponseV1 obj)
              { storeGets := gets, originFetches := 0, aiCalls := 0, writes := [] }
        | none => convertPhase req w key gets

/-- The conversion pipeline of the `worker-md-accept-presence-logs` variant
(part_002 lines 104–189).  It differs from `convertPhase` in exactly two
ways: the final `MARKDOWN_BUCKET.put(key, markdown, ...)` (lines 168–174) is
not wrapped in `try`/`catch`, so a throwing primary put propagates to the
outer catch; and the outer catch returns `String(err)` with no correlation id
and no content type. -/
def convertPhaseV2 (req : RequestModel) (w : World) (key : JsStr) (gets : Nat) : Outcome :=
  match w.upstream with
  | .throwErr msg =>
      .response (catchRespV2 msg)
        { storeGets := gets, originFetches := 1, aiCalls := 0, writes := [] }
  | .resp up =>
      if !respOk up then
        .response
          { status := 502, contentType := none,
            body := "Upstream fetch failed: ".data ++ natToStr up.status
              ++ " ".data ++ up.statusText,
            xCache := none }
          { storeGets := gets, originFetches := 1, aiCalls := 0, writes := [] }
      else
        let upstreamCT := takeBeforeSemicolon (jsOr up.contentTypeHeader htmlCt)
        let htmlWrites := htmlSnapshotWrites req w key upstreamCT up.body
        match w.ai with
        | .throwErr msg =>
            .response (catchRespV2 msg)
              { storeGets := gets, originFetches := 1, aiCalls := 1, writes := htmlWrites }
        | .invalid =>
            .response
              { status := 500, contentType := none,
                body := "AI conversion failed".data, xCache := none }
              { storeGets := gets, originFetches := 1, aiCalls := 1, writes := htmlWrites }
        | .valid markdown =>
            if trimStartsWithLt markdown then
              let qWrites :=
                if w.bucketConfigured && w.putQuarantineFail.isNone then
                  [{ key := key ++ ".ai-failed.txt".data, payload := .text markdown,
                     contentType := plainCt }]
                else []
              .response
                { status := 200, contentType := some plainCt, body := markdown, xCache := none }
                { storeGets := gets, originFetches := 1, aiCalls := 1,
                  writes := htmlWrites ++ qWrites }
            else
              match w.bucketConfigured, w.putPrimaryFail with
              | true, some msg =>
                  .response (catchRespV2 msg)
                    { storeGets := gets, originFetches := 1, aiCalls := 1,
                      writes := htmlWrites }
              | bc, _ =>
                  let pWrites :=
                    if bc then
                      [{ key := key, payload := .text markdown, contentType := mdCtFull }]
                    else []
                  .response
                    { status := 200, contentType := some mdCtFull, body := markdown,
                      xCache := some (if bc then "miss,r2-updated".data
                        else "miss,no-r2".data) }
                    { storeGets := gets, originFetches := 1, aiCalls := 1,
                      writes := htmlWrites ++ pWrites }

/-- The fetch handler of the `worker-md-accept-presence-logs` variant
(part_002 lines 43–190): identical trigger decision and key/target resolution
to the main worker; the cache-hit response does set
`Content-Type: text/markdown; charset=utf-8`. -/
def fetchHandlerV2 (req : RequestModel) (w : World) : Outcome :=
  match req.pathDecode with
  | none => .uncaught
  | some pathname =>
      let acceptPrefers := prefersMarkdownByPresence req.accept
      let isMdPath := endsWithMd pathname
      if !acceptPrefers && !isMdPath then
        .proxied
      else
        let key := (resolveKeyTarget req.url pathname).1
        let gets := storeGetCount req w
        match cacheHit req w with
        | some obj =>
            .response (hitResponseV2 obj)
              { storeGets := gets, originFetches := 0, aiCalls := 0, writes := [] }
        | none => convertPhaseV2 req w key gets

/-! ### Helper lemmas -/

/-- Appending a nonempty list changes a list. -/
theorem append_ne_self (l t : JsStr) (h : t ≠ []) : l ++ t ≠ l := by
  intro he
  have := congrArg List.length he
  simp at this
  exact h this

/-- Every HTML-snapshot write targets the `.source.html` key. -/
theorem mem_htmlSnapshotWrites (req : RequestModel) (w : World)
    (key upstreamCT bodyBytes : JsStr) (wr : StoreWrite)
    (h : wr ∈ htmlSnapshotWrites req w key upstreamCT bodyBytes) :
    wr.key = key ++ ".source.html".data ∧ wr.payload = Payload.bytes bodyBytes := by
  unfold htmlSnapshotWrites at h
  split at h
  · simp at h
    subst h
    exact ⟨rfl, rfl⟩
  · simp at h

/-- The conversion pipeline always settles into a response that attempted
exactly one origin fetch and performed the given number of store reads. -/
theorem convertPhase_shape (req : RequestModel) (w : World) (key : JsStr) (gets : Nat) :
    ∃ r eff, convertPhase req w key gets = .response r eff ∧
      eff.originFetches = 1 ∧ eff.storeGets = gets := by
  unfold convertPhase
  rcases w.upstream with up | msg
  · dsimp only
    split
    · exact ⟨_, _, rfl, rfl, rfl⟩
    · rcases w.ai with d | _ | msg <;> dsimp only
      · split
        · exact ⟨_, _, rfl, rfl, rfl⟩
        · exact ⟨_, _, rfl, rfl, rfl⟩
      · exact ⟨_, _, rfl, rfl, rfl⟩
      · exact ⟨_, _, rfl, rfl, rfl⟩
  · exact ⟨_, _, rfl, rfl, rfl⟩

/-- Once the path has been percent-decoded successfully, no exception escapes
the main worker's handler: the prologue after decoding is pure, and the `try`
block catches everything raised inside it. -/
theorem fetchHandler_ne_uncaught (req : RequestModel) (w : World) (p : JsStr)
    (hp : req.pathDecode = some p) : fetchHandler req w ≠ Outcome.uncaught := by
  unfold fetchHandler
  rw [hp]
  dsimp only
  split
  · intro h
    exact Outcome.noConfusion h
  · cases hc : cacheHit req w with
    | some obj =>
        intro h
        exact Outcome.noConfusion h
    | none =>
        obtain ⟨r, eff, he, -, -⟩ := convertPhase_shape req w
          (resolveKeyTarget req.url p).1 (storeGetCount req w)
        rw [he]
        intro h
        exact Outcome.noConfusion h

/-- A triggered request (`acceptPrefers || isMdPath`) does not take the
pass-through branch. -/
theorem trigger_not_proxy (a b : Bool) (h : (a || b) = true) : (!a && !b) = false := by
  cases a <;> cases b <;> simp_all

/-! ### The header-trigger scan versus declarative token occurrence (C3) -/

/-- The regex scan `hasTokenFrom` finds exactly the `\b`-delimited occurrences
of the needle, relative to the character `prev` preceding the scanned
remainder. -/
theorem hasTokenFrom_iff (needle : JsStr) (hne : needle ≠ []) (s : JsStr) (prev : Option Char) :
    hasTokenFrom needle prev s = true ↔
      ∃ pre post, s = pre ++ needle ++ post ∧
        boundaryBefore (lastOr prev pre) = true ∧ boundaryAfter post = true := by
  induction s generalizing prev with
  | nil =>
      constructor
      · intro h
        simp [hasTokenFrom] at h
      · rintro ⟨pre, post, h, -, -⟩
        replace h := h.symm
        simp [List.append_eq_nil] at h
        exact absurd h.2.1 hne
  | cons c rest ih =>
      show ((boundaryBefore prev && matchAtHere needle (c :: rest)) ||
        hasTokenFrom needle (some c) rest) = true ↔ _
      rw [Bool.or_eq_true, Bool.and_eq_true, ih (some c)]
      constructor
      · rintro (⟨hb, hm⟩ | ⟨pre, post, heq, hb, ha⟩)
        · unfold matchAtHere at hm
          rw [Bool.and_eq_true] at hm
          obtain ⟨hpre, hafter⟩ := hm
          obtain ⟨t, ht⟩ := List.isPrefixOf_iff_prefix.mp hpre
          refine ⟨[], t, by simp [ht], by simpa [lastOr] using hb, ?_⟩
          rw [← ht, List.drop_left] at hafter
          exact hafter
        · exact ⟨c :: pre, post, by simp [heq], by simpa [lastOr] using hb, ha⟩
      · rintro ⟨pre, post, heq, hb, ha⟩
        cases pre with
        | nil =>
            left
            simp only [lastOr] at hb
            refine ⟨hb, ?_⟩
            unfold matchAtHere
            rw [Bool.and_eq_true]
            simp only [List.nil_append] at heq
            refine ⟨List.isPrefixOf_iff_prefix.mpr ⟨post, heq.symm⟩, ?_⟩
            rw [heq, List.drop_left]
            exact ha
        | cons c' pre' =>
            right
            have hc : c = c' ∧ rest = pre' ++ needle ++ post := by
              simpa using heq
            refine ⟨pre', post, hc.2, ?_, ha⟩
            rw [hc.1]
            simpa [lastOr] using hb

/-- `/\bneedle\b/.test(hay)` holds exactly when the needle occurs with word
boundaries on both sides. -/
theorem hasToken_iff (needle : JsStr) (hne : needle ≠ []) (hay : JsStr) :
    hasToken needle hay = true ↔ TokenOccurs needle hay :=
  hasTokenFrom_iff needle hne hay none

/-! ### Shape of the resolved cache key (C4) -/

/-- A decoded path starting with a doubled separator (`//...`), the only case
in which stripping a single leading slash leaves another one. -/
def startsWithTwoSlashes (p : JsStr) : Bool :=
  match p with
  | c1 :: c2 :: _ => c1 == '/' && c2 == '/'
  | _ => false

/-- Dropping one leading slash preserves a trailing `.md`. -/
theorem endsWithMd_dropOneLeadingSlash (p : JsStr) (h : endsWithMd p = true) :
    endsWithMd (dropOneLeadingSlash p) = true := by
  unfold endsWithMd at *
  rw [List.isSuffixOf_iff_suffix] at *
  cases p with
  | nil =>
      rw [List.suffix_nil] at h
      exact absurd h (by decide)
  | cons c rest =>
      simp only [dropOneLeadingSlash]
      by_cases hc : c = '/'
      · rw [if_pos hc]
        rcases List.suffix_cons_iff.mp h with heq | hs
        · subst hc
          have hh : mdSuffix.head? = some '/' := by rw [heq]; rfl
          simp [mdSuffix] at hh
        · exact hs
      · rw [if_neg hc]
        exact h

/-- After stripping one leading slash, the head can only be `'/'` when the
original path began with two slashes. -/
theorem head_dropOneLeadingSlash (p : JsStr) (h : startsWithTwoSlashes p = false) :
    (dropOneLeadingSlash p).head? ≠ some '/' := by
  cases p with
  | nil => simp [dropOneLeadingSlash]
  | cons c rest =>
      simp only [dropOneLeadingSlash]
      by_cases hc : c = '/'
      · rw [if_pos hc]
        cases rest with
        | nil => simp
        | cons c2 r2 =>
            subst hc
            intro hh
            have hc2 : c2 = '/' := by simpa using hh
            rw [hc2] at h
            simp [startsWithTwoSlashes] at h
      · rw [if_neg hc]
        intro hh
        exact hc (by simpa using hh)

/-- The head of `dropOneTrailingSlash q` is a head of `q`. -/
theorem head_dropOneTrailingSlash (q : JsStr) (b : Char)
    (h : (dropOneTrailingSlash q).head? = some b) : q.head? = some b := by
  unfold dropOneTrailingSlash at h
  split at h
  · cases q with
    | nil => simp [List.dropLast] at h
    | cons a as =>
        cases as with
        | nil => simp [List.dropLast] at h
        | cons a2 as2 => simpa [List.dropLast] using h
  · exact h

/-! ### Concrete scenarios used by witnesses and counterexamples -/

/-- A typical request URL. -/
def urlEx : Url :=
  { origin := "https://example.com".data, path := "/articles/foo.md".data, query := [] }

/-- A plain path-triggered request for `/articles/foo.md`. -/
def baseReq : RequestModel :=
  { url := urlEx, pathDecode := some "/articles/foo.md".data, accept := none,
    debug := false, refresh := false, saveHtml := false, reqId := "req-1".data }

/-- `baseReq` with `?refresh=1`. -/
def reqRefresh : RequestModel := { baseReq with refresh := true }

/-- A 200 origin response carrying HTML. -/
def upOk : UpstreamResponse :=
  { status := 200, statusText := "OK".data,
    contentTypeHeader := some "text/html; charset=utf-8".data,
    body := "<html><p>x</p></html>".data }

/-- A 404 origin response. -/
def up404 : UpstreamResponse :=
  { status := 404, statusText := "Not Found".data, contentTypeHeader := none,
    body := "nope".data }

/-- A benign world: store configured and empty, origin healthy, converter
returns genuine markdown, all puts succeed. -/
def baseWorld : World :=
  { bucketConfigured := true, stored := none, now := 1000,
    upstream := .resp upOk, ai := .valid "# Foo\ncontent".data,
    putPrimaryFail := none, putQuarantineFail := none, putHtmlFail := none }

/-- A cached object with timestamp `t` and declared content type `ct`. -/
def objAt (t : Int) (ct : JsStr) : CachedObject :=
  { uploadedAt := some t, contentType := some ct, body := "# cached doc".data }

/-- A cached object whose `uploaded` field is not a `Date`. -/
def objNoDate : CachedObject :=
  { uploadedAt := none, contentType := some "text/markdown".data, body := "# stale".data }

/-- A request whose raw path `/%zz.md` holds a malformed percent sequence, so
`decodeURIComponent` throws. -/
def reqBadPercent : RequestModel :=
  { url := { origin := "https://example.com".data, path := "/%zz.md".data, query := [] },
    pathDecode := none, accept := none, debug := false, refresh := false,
    saveHtml := false, reqId := "req-bad".data }

/-! ### C3 — header trigger and token boundaries -/

/-- C3, counterexample.  The claim says a header containing
`text/plain-extended` (and no whole-media-type-token occurrence of either
needle) must classify as PassThrough.  The worker's regex
`/\btext\/plain\b/i` matches it, because `'-'` is not a word character and
therefore satisfies the trailing `\b`: the header trigger fires. -/
theorem c3_counterexample :
    prefersMarkdownByPresence (some "text/plain-extended".data) = true := by decide

/-- C3, amended.  The header trigger fires iff the lowered header contains
`text/markdown` or `text/plain` delimited by JavaScript word boundaries
(`\b`): string edges or non-word characters.  A character such as `'-'`
counts as a boundary, so `text/plain-extended` does fire the trigger, while
e.g. `text/plainx` or `xtext/plain` do not. -/
theorem c3_amended (s : JsStr) :
    prefersMarkdownByPresence (some s) = true ↔
      TokenOccurs mdNeedle (lowerStr s) ∨ TokenOccurs plainNeedle (lowerStr s) := by
  have hmd : mdNeedle ≠ [] := by decide
  have hpl : plainNeedle ≠ [] := by decide
  cases s with
  | nil =>
      constructor
      · intro h
        simp [prefersMarkdownByPresence] at h
      · rintro (⟨pre, post, h, -, -⟩ | ⟨pre, post, h, -, -⟩)
        · replace h := h.symm
          simp [lowerStr, List.append_eq_nil] at h
          exact absurd h.2.1 hmd
        · replace h := h.symm
          simp [lowerStr, List.append_eq_nil] at h
          exact absurd h.2.1 hpl
  | cons c cs =>
      show (hasToken mdNeedle (lowerStr (c :: cs)) ||
        hasToken plainNeedle (lowerStr (c :: cs))) = true ↔ _
      rw [Bool.or_eq_true, hasToken_iff mdNeedle hmd, hasToken_iff plainNeedle hpl]

/-- C3, witness for the amended theorem: a header where `text/plain` occurs
with boundaries on both sides does trigger, and the declarative decomposition
exists. -/
theorem c3_witness :
    TokenOccurs mdNeedle (lowerStr "Accept: TEXT/PLAIN, text/html".data) ∨
      TokenOccurs plainNeedle (lowerStr "Accept: TEXT/PLAIN, text/html".data) :=
  (c3_amended "Accept: TEXT/PLAIN, text/html".data).mp (by decide)

/-! ### C4 — key/target resolution -/

/-- The request URL `https://example.com//foo.md`, whose pathname is
`//foo.md`. -/
def urlDbl : Url :=
  { origin := "https://example.com".data, path := "//foo.md".data, query := [] }

/-- C4, counterexample.  For the decoded path `//foo.md` (request URL
`https://example.com//foo.md`), only the first separator is stripped: the
derived Cache Key is `/foo.md`, which begins with a path separator, refuting
the claim's "never contains a leading path separator". -/
theorem c4_counterexample :
    endsWithMd "//foo.md".data = true ∧
    (resolveKeyTarget urlDbl "//foo.md".data).1 = "/foo.md".data ∧
    (resolveKeyTarget urlDbl "//foo.md".data).1.head? = some '/' := by decide

/-- C4, amended.  The branch descriptions of the claim hold as stated: a
`.md` path keeps its suffix and loses one leading separator while the target
loses the trailing `.md`; a header-only trigger appends `.md` to the path
stripped of one leading and one trailing separator (empty path becomes
`index`) and leaves the target unchanged.  The key always ends in `.md`.
But only the FIRST leading separator is stripped, so the key is guaranteed
free of a leading separator only when the decoded path does not begin with a
doubled separator. -/
theorem c4_amended (u : Url) (p : JsStr) :
    (endsWithMd p = true →
      (resolveKeyTarget u p).1 = dropOneLeadingSlash p ∧
      (resolveKeyTarget u p).2 = { u with path := dropLast3 p }) ∧
    (endsWithMd p = false →
      (resolveKeyTarget u p).1 =
        (if (dropOneTrailingSlash (dropOneLeadingSlash p)).isEmpty then "index".data
         else dropOneTrailingSlash (dropOneLeadingSlash p)) ++ mdSuffix ∧
      (resolveKeyTarget u p).2 = u) ∧
    endsWithMd (resolveKeyTarget u p).1 = true ∧
    (startsWithTwoSlashes p = false → (resolveKeyTarget u p).1.head? ≠ some '/') := by
  by_cases hmd : endsWithMd p = true
  · have hk : resolveKeyTarget u p =
        (dropOneLeadingSlash p, { u with path := dropLast3 p }) := by
      unfold resolveKeyTarget
      rw [if_pos hmd]
    refine ⟨fun _ => ⟨by rw [hk], by rw [hk]⟩, fun hf => absurd hmd (by simp [hf]),
      ?_, fun h2 => ?_⟩
    · rw [hk]
      exact endsWithMd_dropOneLeadingSlash p hmd
    · rw [hk]
      exact head_dropOneLeadingSlash p h2
  · have hk : resolveKeyTarget u p =
        ((if (dropOneTrailingSlash (dropOneLeadingSlash p)).isEmpty then "index".data
          else dropOneTrailingSlash (dropOneLeadingSlash p)) ++ mdSuffix, u) := by
      unfold resolveKeyTarget
      rw [if_neg hmd]
    refine ⟨fun ht => absurd ht hmd, fun _ => ⟨by rw [hk], by rw [hk]⟩, ?_, fun h2 => ?_⟩
    · rw [hk]
      unfold endsWithMd
      rw [List.isSuffixOf_iff_suffix]
      exact List.suffix_append _ _
    · rw [hk]
      dsimp only
      by_cases hbe : (dropOneTrailingSlash (dropOneLeadingSlash p)).isEmpty
      · rw [if_pos hbe]
        decide
      · rw [if_neg hbe]
        cases hB : dropOneTrailingSlash (dropOneLeadingSlash p) with
        | nil => simp [hB, List.isEmpty] at hbe
        | cons b bs =>
            simp only [List.cons_append, List.head?]
            intro hh
            have hb : b = '/' := by simpa using hh
            have hq : (dropOneLeadingSlash p).head? = some '/' := by
              refine head_dropOneTrailingSlash (dropOneLeadingSlash p) '/' ?_
              rw [hB, hb]
              rfl
            exact head_dropOneLeadingSlash p h2 hq

/-- C4, witness for the amended theorem, instantiated at the path
`/a/b.md`: the key is `a/b.md`, it ends in `.md`, and it has no leading
separator. -/
theorem c4_witness :
    (resolveKeyTarget urlEx "/a/b.md".data).1 = "a/b.md".data ∧
    endsWithMd (resolveKeyTarget urlEx "/a/b.md".data).1 = true ∧
    (resolveKeyTarget urlEx "/a/b.md".data).1.head? ≠ some '/' := by
  have h := c4_amended urlEx ("/a/b.md".data)
  refine ⟨?_, h.2.2.1, h.2.2.2 (by decide)⟩
  rw [(h.1 (by decide)).1]
  decide

/-! ### Run-computation helpers -/

/-- With `?refresh=1` the guard of the cache check is false: the store is not
queried. -/
theorem cacheHit_refresh (req : RequestModel) (w : World) (h : req.refresh = true) :
    cacheHit req w = none := by
  unfold cacheHit
  rw [h]
  simp

/-- A found object with a `Date` timestamp and a declared content type is
served exactly when it is markdown-typed and fresh. -/
theorem cacheHit_some (req : RequestModel) (w : World) (obj : CachedObject) (t : Int)
    (ct : JsStr) (hrefresh : req.refresh = false) (hbucket : w.bucketConfigured = true)
    (hstored : w.stored = some obj) (ht : obj.uploadedAt = some t)
    (hct : obj.contentType = some ct)
    (hcond : mdCtNeedle.isPrefixOf (lowerStr ct) = true ∧ w.now - t < maxAgeMs) :
    cacheHit req w = some obj := by
  unfold cacheHit
  rw [hbucket, hrefresh, hstored]
  dsimp only
  rw [ht, hct]
  simp [hcond.1, hcond.2]

/-- A found object failing the markdown/freshness validation is not served. -/
theorem cacheHit_none_invalid (req : RequestModel) (w : World) (obj : CachedObject)
    (t : Int) (ct : JsStr) (hstored : w.stored = some obj) (ht : obj.uploadedAt = some t)
    (hct : obj.contentType = some ct)
    (hcond : ¬(mdCtNeedle.isPrefixOf (lowerStr ct) = true ∧ w.now - t < maxAgeMs)) :
    cacheHit req w = none := by
  unfold cacheHit
  split
  · rw [hstored]
    dsimp only
    rw [ht, hct]
    rw [if_neg ?_]
    intro hcc
    rw [Bool.and_eq_true, decide_eq_true_eq] at hcc
    simp only [Option.getD_some] at hcc
    exact hcond ⟨hcc.2, hcc.1⟩
  · rfl

/-- A triggered request that misses the cache runs the conversion pipeline. -/
theorem fetchHandler_miss_run (req : RequestModel) (w : World) (p : JsStr)
    (hp : req.pathDecode = some p)
    (htrig : (prefersMarkdownByPresence req.accept || endsWithMd p) = true)
    (hch : cacheHit req w = none) :
    fetchHandler req w =
      convertPhase req w (resolveKeyTarget req.url p).1 (storeGetCount req w) := by
  unfold fetchHandler
  rw [hp]
  dsimp only
  rw [if_neg (by simp [trigger_not_proxy _ _ htrig]), hch]

/-- A triggered request that hits the cache is served the stored object with
no origin fetch and no converter call. -/
theorem fetchHandler_hit_run (req : RequestModel) (w : World) (p : JsStr)
    (obj : CachedObject) (hp : req.pathDecode = some p)
    (htrig : (prefersMarkdownByPresence req.accept || endsWithMd p) = true)
    (hch : cacheHit req w = some obj) :
    fetchHandler req w = .response (hitResponseV1 obj)
      { storeGets := storeGetCount req w, originFetches := 0, aiCalls := 0, writes := [] } := by
  unfold fetchHandler
  rw [hp]
  dsimp only
  rw [if_neg (by simp [trigger_not_proxy _ _ htrig]), hch]

/-! ### C1 — the quarantine invariant -/

/-- Pipeline-level quarantine invariant: when the converter returns text that,
trimmed, begins with `'<'`, no write of any run of the conversion pipeline
targets the primary key; and if the converter was actually invoked, the
response is 200 `text/plain`, the suspect text is written only to the
quarantine key (with plain content type), and — store permitting — that
quarantine write does happen. -/
theorem convertPhase_suspect (req : RequestModel) (w : World) (key : JsStr) (gets : Nat)
    (md : JsStr) (hai : w.ai = AiOutcome.valid md) (hsus : trimStartsWithLt md = true) :
    (∀ wr ∈ (convertPhase req w key gets).writesOf, wr.key ≠ key) ∧
    ((convertPhase req w key gets).aiCallsOf = 1 →
      ∃ r eff, convertPhase req w key gets = Outcome.response r eff ∧
        r.status = 200 ∧ r.contentType = some plainCt ∧ r.body = md ∧
        (∀ wr ∈ eff.writes, wr.payload = Payload.text md →
          wr.key = key ++ ".ai-failed.txt".data ∧ wr.contentType = plainCt) ∧
        (w.bucketConfigured = true → w.putQuarantineFail = none →
          ({ key := key ++ ".ai-failed.txt".data, payload := Payload.text md,
             contentType := plainCt } : StoreWrite) ∈ eff.writes)) := by
  unfold convertPhase
  rcases w.upstream with up | msg
  · dsimp only
    split
    · constructor
      · intro wr hwr
        simp [Outcome.writesOf] at hwr
      · intro hcall
        simp [Outcome.aiCallsOf] at hcall
    · rw [hai]
      dsimp only
      rw [if_pos hsus]
      constructor
      · intro wr hwr
        simp only [Outcome.writesOf] at hwr
        rw [List.mem_append] at hwr
        rcases hwr with hw | hw
        · obtain ⟨hk, -⟩ := mem_htmlSnapshotWrites _ _ _ _ _ _ hw
          rw [hk]
          exact append_ne_self _ _ (by decide)
        · split at hw
          · simp only [List.mem_singleton] at hw
            rw [hw]
            exact append_ne_self _ _ (by decide)
          · simp at hw
      · intro _
        refine ⟨_, _, rfl, rfl, rfl, rfl, ?_, ?_⟩
        · intro wr hwr hpay
          rw [List.mem_append] at hwr
          rcases hwr with hw | hw
          · obtain ⟨-, hpb⟩ := mem_htmlSnapshotWrites _ _ _ _ _ _ hw
            rw [hpay] at hpb
            exact Payload.noConfusion hpb
          · split at hw
            · simp only [List.mem_singleton] at hw
              rw [hw]
              exact ⟨rfl, rfl⟩
            · simp at hw
        · intro hbc hqf
          have hcnd : (w.bucketConfigured && w.putQuarantineFail.isNone) = true := by
            rw [hbc, hqf]
            rfl
          rw [if_pos hcnd]
          exact List.mem_append_right _ (by simp)
  · constructor
    · intro wr hwr
      simp [Outcome.writesOf] at hwr
    · intro hcall
      simp [Outcome.aiCallsOf] at hcall

/-- C1.  For every run, if the converter's returned text begins (after
trimming) with `'<'`, the primary Cache Key is never written; when the
conversion step was reached, the suspect payload goes only to the quarantine
key `key ++ ".ai-failed.txt"` with plain-text content type, and the client
response is status 200 with `Content-Type: text/plain; charset=utf-8`. -/
theorem c1_quarantine (req : RequestModel) (w : World) (md p key : JsStr)
    (hp : req.pathDecode = some p)
    (hkey : key = (resolveKeyTarget req.url p).1)
    (hai : w.ai = AiOutcome.valid md)
    (hsus : trimStartsWithLt md = true) :
    (∀ wr ∈ (fetchHandler req w).writesOf, wr.key ≠ key) ∧
    ((fetchHandler req w).aiCallsOf = 1 →
      ∃ r eff, fetchHandler req w = Outcome.response r eff ∧
        r.status = 200 ∧ r.contentType = some plainCt ∧ r.body = md ∧
        (∀ wr ∈ eff.writes, wr.payload = Payload.text md →
          wr.key = key ++ ".ai-failed.txt".data ∧ wr.contentType = plainCt) ∧
        (w.bucketConfigured = true → w.putQuarantineFail = none →
          ({ key := key ++ ".ai-failed.txt".data, payload := Payload.text md,
             contentType := plainCt } : StoreWrite) ∈ eff.writes)) := by
  subst hkey
  unfold fetchHandler
  rw [hp]
  dsimp only
  split
  · constructor
    · intro wr hwr
      simp [Outcome.writesOf] at hwr
    · intro hcall
      simp [Outcome.aiCallsOf] at hcall
  · cases hc : cacheHit req w with
    | some obj =>
        constructor
        · intro wr hwr
          simp [Outcome.writesOf] at hwr
        · intro hcall
          simp [Outcome.aiCallsOf] at hcall
    | none => exact convertPhase_suspect req w _ _ md hai hsus

/-! ### C2 — cache validation -/

/-- C2.  For a cached object found at the Cache Key (force-refresh unset,
store configured) with a `Date` upload timestamp `t` and a declared content
type `ct`: the lookup serves it (a Hit: the stored body, no origin fetch) iff
`ct`, lowered, starts with `text/markdown` AND `now - t < 90*24*60*60*1000`;
otherwise the pipeline regenerates (exactly one origin fetch after exactly
one store read) — nothing is deleted (the model has no delete operation, and
the object store is only ever written by `put`). -/
theorem c2_cache_validation (req : RequestModel) (w : World) (obj : CachedObject)
    (t : Int) (ct p : JsStr)
    (hp : req.pathDecode = some p)
    (htrig : (prefersMarkdownByPresence req.accept || endsWithMd p) = true)
    (hrefresh : req.refresh = false)
    (hbucket : w.bucketConfigured = true)
    (hstored : w.stored = some obj)
    (ht : obj.uploadedAt = some t)
    (hct : obj.contentType = some ct) :
    ((∃ eff, fetchHandler req w = Outcome.response (hitResponseV1 obj) eff ∧
        eff.originFetches = 0) ↔
      (mdCtNeedle.isPrefixOf (lowerStr ct) = true ∧ w.now - t < maxAgeMs)) ∧
    (¬(mdCtNeedle.isPrefixOf (lowerStr ct) = true ∧ w.now - t < maxAgeMs) →
      ∃ r eff, fetchHandler req w = Outcome.response r eff ∧
        eff.originFetches = 1 ∧ eff.storeGets = 1) := by
  have hgc : storeGetCount req w = 1 := by
    unfold storeGetCount
    rw [hbucket, hrefresh]
    rfl
  by_cases hcond : mdCtNeedle.isPrefixOf (lowerStr ct) = true ∧ w.now - t < maxAgeMs
  · have hrun := fetchHandler_hit_run req w p obj hp htrig
      (cacheHit_some req w obj t ct hrefresh hbucket hstored ht hct hcond)
    exact ⟨⟨fun _ => hcond, fun _ => ⟨_, hrun, rfl⟩⟩, fun hn => absurd hcond hn⟩
  · have hrun := fetchHandler_miss_run req w p hp htrig
      (cacheHit_none_invalid req w obj t ct hstored ht hct hcond)
    obtain ⟨r, eff, he, h1, h2⟩ :=
      convertPhase_shape req w (resolveKeyTarget req.url p).1 (storeGetCount req w)
    refine ⟨⟨fun hl => ?_, fun hr => absurd hr hcond⟩,
      fun _ => ⟨r, eff, by rw [hrun, he], h1, by rw [h2, hgc]⟩⟩
    obtain ⟨eff2, he2, h0⟩ := hl
    rw [hrun, he] at he2
    injection he2 with hr2 heff2
    rw [← heff2] at h0
    exact absurd (h1.symm.trans h0) (by decide)

/-! ### C6 — fault handling at the outer boundary -/

/-- C6, counterexample.  A request whose raw path has a malformed percent
sequence (e.g. `/%zz.md`) makes `decodeURIComponent` throw on line 33 of
`src/index.ts`, BEFORE the `try` block that starts on line 81: the exception
escapes the handler, so no status-500 response carrying the correlation id is
produced, refuting the claim for percent-decoding faults. -/
theorem c6_counterexample :
    fetchHandler reqBadPercent baseWorld = Outcome.uncaught ∧
    ∀ r eff, fetchHandler reqBadPercent baseWorld ≠ Outcome.response r eff := by
  refine ⟨rfl, fun r eff h => ?_⟩
  rw [show fetchHandler reqBadPercent baseWorld = Outcome.uncaught from rfl] at h
  exact Outcome.noConfusion h

/-- The correlation id always sits inside the outer-catch body. -/
theorem reqId_infix_catchBody (reqId msg : JsStr) : reqId <:+: catchBody reqId msg :=
  ⟨"Internal Server Error\nRequest ID: ".data, "\n".data ++ msg,
    by simp [catchBody, List.append_assoc]⟩

/-- C6, amended.  A percent-decoding fault in the prologue escapes the
handler uncaught; once decoding succeeds no fault escapes; and any fault
raised inside the guarded conversion block — the model's fault sites are the
origin fetch throwing, or the converter throwing after a 2xx fetch, either of
which can only happen on a run that reaches the pipeline (a cache miss; the
hit branch has no fault site) — is caught at the outermost boundary and
surfaced as a status-500 response whose body always contains the correlation
id, with `Content-Type: text/plain; charset=utf-8`. -/
theorem c6_amended (req : RequestModel) (w : World) :
    (req.pathDecode = none → fetchHandler req w = Outcome.uncaught) ∧
    (∀ p, req.pathDecode = some p → fetchHandler req w ≠ Outcome.uncaught) ∧
    (∀ p msg, req.pathDecode = some p →
      (prefersMarkdownByPresence req.accept || endsWithMd p) = true →
      cacheHit req w = none →
      (w.upstream = UpstreamOutcome.throwErr msg ∨
        (∃ up, w.upstream = UpstreamOutcome.resp up ∧ respOk up = true ∧
          w.ai = AiOutcome.throwErr msg)) →
      ∃ eff, fetchHandler req w = Outcome.response (catchRespV1 req.reqId msg) eff ∧
        (catchRespV1 req.reqId msg).status = 500 ∧
        req.reqId <:+: (catchRespV1 req.reqId msg).body) := by
  refine ⟨fun hn => ?_, fun p hp => fetchHandler_ne_uncaught req w p hp, ?_⟩
  · unfold fetchHandler
    rw [hn]
  · intro p msg hp htrig hmiss hfault
    have hrun := fetchHandler_miss_run req w p hp htrig hmiss
    rw [hrun]
    unfold convertPhase
    rcases hfault with hthrow | ⟨up, hup, hok, hai⟩
    · rw [hthrow]
      exact ⟨_, rfl, rfl, reqId_infix_catchBody req.reqId msg⟩
    · rw [hup]
      dsimp only
      rw [if_neg (by rw [hok]; simp), hai]
      exact ⟨_, rfl, rfl, reqId_infix_catchBody req.reqId msg⟩

/-! ### C7 — upstream failure surfaced as 502 -/

/-- C7.  A triggered request that misses the cache and whose origin fetch
settles with a non-2xx status yields a 502 response whose body contains the
origin's numeric status and status text, after exactly one (never retried)
origin fetch. -/
theorem c7_upstream_failure (req : RequestModel) (w : World) (up : UpstreamResponse)
    (p : JsStr)
    (hp : req.pathDecode = some p)
    (htrig : (prefersMarkdownByPresence req.accept || endsWithMd p) = true)
    (hch : cacheHit req w = none)
    (hup : w.upstream = UpstreamOutcome.resp up)
    (hbad : respOk up = false) :
    ∃ eff, fetchHandler req w =
      Outcome.response
        { status := 502, contentType := none,
          body := "Upstream fetch failed: ".data ++ natToStr up.status ++ " ".data
            ++ up.statusText,
          xCache := none } eff ∧
      eff.originFetches = 1 ∧
      natToStr up.status <:+:
        ("Upstream fetch failed: ".data ++ natToStr up.status ++ " ".data
          ++ up.statusText) ∧
      up.statusText <:+:
        ("Upstream fetch failed: ".data ++ natToStr up.status ++ " ".data
          ++ up.statusText) := by
  have hrun := fetchHandler_miss_run req w p hp htrig hch
  rw [hrun]
  unfold convertPhase
  rw [hup]
  dsimp only
  rw [if_pos (by rw [hbad]; rfl)]
  refine ⟨_, rfl, rfl, ?_, ?_⟩
  · exact ⟨"Upstream fetch failed: ".data, " ".data ++ up.statusText,
      by simp [List.append_assoc]⟩
  · exact ⟨"Upstream fetch failed: ".data ++ natToStr up.status ++ " ".data, [],
      by simp [List.append_assoc]⟩

/-! ### C8 — force refresh bypasses the store -/

/-- C8.  A triggered request with `?refresh=1` performs zero store reads
(the lookup is bypassed, not merely ignored) and always proceeds to the
pipeline with exactly one origin fetch attempt. -/
theorem c8_refresh_bypass (req : RequestModel) (w : World) (p : JsStr)
    (hp : req.pathDecode = some p)
    (htrig : (prefersMarkdownByPresence req.accept || endsWithMd p) = true)
    (hrefresh : req.refresh = true) :
    ∃ r eff, fetchHandler req w = Outcome.response r eff ∧
      eff.storeGets = 0 ∧ eff.originFetches = 1 := by
  have hrun := fetchHandler_miss_run req w p hp htrig (cacheHit_refresh req w hrefresh)
  have hgc : storeGetCount req w = 0 := by
    unfold storeGetCount
    rw [hrefresh]
    simp
  obtain ⟨r, eff, he, h1, h2⟩ :=
    convertPhase_shape req w (resolveKeyTarget req.url p).1 (storeGetCount req w)
  exact ⟨r, eff, by rw [hrun, he], by rw [h2, hgc], h1⟩

/-! ### C10 — total validation over malformed store metadata -/

/-- A found object whose upload timestamp is not a `Date`, or whose declared
content type is missing, is never served. -/
theorem cacheHit_none_malformed (req : RequestModel) (w : World) (obj : CachedObject)
    (hstored : w.stored = some obj)
    (hmal : obj.uploadedAt = none ∨ obj.contentType = none) :
    cacheHit req w = none := by
  unfold cacheHit
  split
  · rw [hstored]
    dsimp only
    rcases hmal with h | h
    · rw [h]
      simp
    · rw [h]
      simp only [Option.getD_none,
        show mdCtNeedle.isPrefixOf (lowerStr []) = false from by decide, Bool.and_false]
      simp
  · rfl

/-- C10.  A cached object with an absent/non-`Date` upload timestamp or a
missing content type is treated exactly as an absent object: the run is
indistinguishable from the same run against an empty store (so the object is
not served and the pipeline regenerates), and no exception escapes once the
path decoded. -/
theorem c10_malformed_metadata (req : RequestModel) (w : World) (obj : CachedObject)
    (hstored : w.stored = some obj)
    (hmal : obj.uploadedAt = none ∨ obj.contentType = none) :
    fetchHandler req w = fetchHandler req { w with stored := none } ∧
    (∀ p, req.pathDecode = some p → fetchHandler req w ≠ Outcome.uncaught) := by
  refine ⟨?_, fun p hp => fetchHandler_ne_uncaught req w p hp⟩
  have h1 : cacheHit req w = none := cacheHit_none_malformed req w obj hstored hmal
  have h2 : cacheHit req { w with stored := none } = none := by
    unfold cacheHit
    split
    · rfl
    · rfl
  unfold fetchHandler
  cases hp : req.pathDecode with
  | none => rfl
  | some p =>
      dsimp only
      rw [h1, h2]
      exact rfl

/-! ### C5 — part_002 lets a primary-put failure escape (code bug) -/

/-- The world where everything succeeds except the primary-key `put`. -/
def wPutFails : World := { baseWorld with putPrimaryFail := some "R2 put failed".data }

/-- C5, divergence evidence.  Same triggered request, same world (origin 200,
converter returns genuine markdown, the primary-key `put` throws): the
`worker-md-accept-presence-logs` variant (part_002, whose final put sits
outside any `try`/`catch`) returns 500 with the raw error text, while the
main worker (`src/index.ts`, put wrapped in `try`/`catch`) returns 200 with
the freshly generated markdown, as the claim requires. -/
theorem c5_divergence :
    fetchHandlerV2 reqRefresh wPutFails =
      Outcome.response (catchRespV2 "R2 put failed".data)
        { storeGets := 0, originFetches := 1, aiCalls := 1, writes := [] } ∧
    fetchHandler reqRefresh wPutFails =
      Outcome.response
        { status := 200, contentType := some mdCtFull, body := "# Foo\ncontent".data,
          xCache := some "miss,r2-updated".data }
        { storeGets := 0, originFetches := 1, aiCalls := 1, writes := [] } :=
  ⟨rfl, rfl⟩

/-! ### C9 — content type on the success paths (code bug on cache hits) -/

/-- The world holding a fresh markdown-typed object at the cache key. -/
def wHit : World :=
  { baseWorld with stored := some (objAt 0 "text/markdown; charset=utf-8".data) }

/-- C9, divergence evidence.  On a cache hit the main worker composes the 200
response without setting any `Content-Type` header (`hitResponseV1`), even
though the claim (and the part_002 variant, `hitResponseV2`, as well as the
main worker's own fresh-conversion path) require
`text/markdown; charset=utf-8`. -/
theorem c9_divergence :
    fetchHandler baseReq wHit =
      Outcome.response
        { status := 200, contentType := none, body := "# cached doc".data,
          xCache := some "r2".data }
        { storeGets := 1, originFetches := 0, aiCalls := 0, writes := [] } ∧
    (hitResponseV1 (objAt 0 "text/markdown; charset=utf-8".data)).contentType = none ∧
    (hitResponseV2 (objAt 0 "text/markdown; charset=utf-8".data)).contentType
      = some mdCtFull :=
  ⟨rfl, rfl, rfl⟩

/-! ### Witnesses -/

/-- The world where the converter echoes HTML. -/
def wSuspect : World := { baseWorld with ai := .valid "<html>echo</html>".data }

/-- C1, witness: concrete run reaching the quarantine branch. -/
theorem c1_witness :
    (∀ wr ∈ (fetchHandler baseReq wSuspect).writesOf, wr.key ≠ "articles/foo.md".data) ∧
    ((fetchHandler baseReq wSuspect).aiCallsOf = 1 →
      ∃ r eff, fetchHandler baseReq wSuspect = Outcome.response r eff ∧
        r.status = 200 ∧ r.contentType = some plainCt ∧
        r.body = "<html>echo</html>".data ∧
        (∀ wr ∈ eff.writes, wr.payload = Payload.text "<html>echo</html>".data →
          wr.key = "articles/foo.md".data ++ ".ai-failed.txt".data ∧
          wr.contentType = plainCt) ∧
        (wSuspect.bucketConfigured = true → wSuspect.putQuarantineFail = none →
          ({ key := "articles/foo.md".data ++ ".ai-failed.txt".data,
             payload := Payload.text "<html>echo</html>".data,
             contentType := plainCt } : StoreWrite) ∈ eff.writes)) :=
  c1_quarantine baseReq wSuspect "<html>echo</html>".data "/articles/foo.md".data
    "articles/foo.md".data rfl (by decide) rfl (by decide)

/-- The freshness-boundary worlds of the C2 witness: the same object uploaded
at epoch 0, observed 89 days later (fresh) and 90 days + 1 ms later (stale). -/
def wFresh : World :=
  { baseWorld with
    now := 7689600000,
    stored := some (objAt 0 "text/markdown; charset=utf-8".data) }

/-- The stale-side boundary world (`now - uploaded = 90 days + 1 ms`). -/
def wStale : World :=
  { baseWorld with
    now := 7776000001,
    stored := some (objAt 0 "text/markdown; charset=utf-8".data) }

/-- C2, witness: an object uploaded 89 days ago is served as a Hit; the same
object at 90 days + 1 ms is a Miss. -/
theorem c2_witness :
    (∃ eff, fetchHandler baseReq wFresh =
      Outcome.response (hitResponseV1 (objAt 0 "text/markdown; charset=utf-8".data)) eff ∧
      eff.originFetches = 0) ∧
    ¬(∃ eff, fetchHandler baseReq wStale =
      Outcome.response (hitResponseV1 (objAt 0 "text/markdown; charset=utf-8".data)) eff ∧
      eff.originFetches = 0) := by
  constructor
  · exact ((c2_cache_validation baseReq wFresh
      (objAt 0 "text/markdown; charset=utf-8".data) 0
      ("text/markdown; charset=utf-8".data) ("/articles/foo.md".data)
      rfl (by decide) rfl rfl rfl rfl rfl).1).mpr (by decide)
  · intro h
    exact absurd (((c2_cache_validation baseReq wStale
      (objAt 0 "text/markdown; charset=utf-8".data) 0
      ("text/markdown; charset=utf-8".data) ("/articles/foo.md".data)
      rfl (by decide) rfl rfl rfl rfl rfl).1).mp h) (by decide)

/-- The world where the origin fetch throws a transport error. -/
def wFetchThrows : World :=
  { baseWorld with upstream := .throwErr "TypeError: fetch failed".data }

/-- The world where the converter throws after a healthy 200 fetch. -/
def wAiThrows : World :=
  { baseWorld with ai := .throwErr "Error: AI failed".data }

/-- C6, witness for the amended theorem, at both fault sites: a transport
error thrown by the origin fetch (on a force-refresh run) and a converter
throw after a 2xx fetch (on an ordinary cache-miss run) each yield the 500
catch response whose body contains the correlation id. -/
theorem c6_witness :
    (∃ eff, fetchHandler reqRefresh wFetchThrows =
      Outcome.response (catchRespV1 "req-1".data "TypeError: fetch failed".data) eff ∧
      (catchRespV1 "req-1".data "TypeError: fetch failed".data).status = 500 ∧
      "req-1".data <:+: (catchRespV1 "req-1".data "TypeError: fetch failed".data).body) ∧
    (∃ eff, fetchHandler baseReq wAiThrows =
      Outcome.response (catchRespV1 "req-1".data "Error: AI failed".data) eff ∧
      (catchRespV1 "req-1".data "Error: AI failed".data).status = 500 ∧
      "req-1".data <:+: (catchRespV1 "req-1".data "Error: AI failed".data).body) :=
  ⟨(c6_amended reqRefresh wFetchThrows).2.2 "/articles/foo.md".data
      "TypeError: fetch failed".data rfl (by decide) (by decide) (Or.inl rfl),
    (c6_amended baseReq wAiThrows).2.2 "/articles/foo.md".data
      "Error: AI failed".data rfl (by decide) (by decide)
      (Or.inr ⟨upOk, rfl, by decide, rfl⟩)⟩

/-- The world where the origin answers 404. -/
def w404 : World := { baseWorld with upstream := .resp up404 }

/-- C7, witness: an origin 404 yields a 502 whose body mentions `404`. -/
theorem c7_witness :
    (∃ eff, fetchHandler baseReq w404 =
      Outcome.response
        { status := 502, contentType := none,
          body := "Upstream fetch failed: ".data ++ natToStr up404.status ++ " ".data
            ++ up404.statusText,
          xCache := none } eff ∧
      eff.originFetches = 1 ∧
      natToStr up404.status <:+:
        ("Upstream fetch failed: ".data ++ natToStr up404.status ++ " ".data
          ++ up404.statusText) ∧
      up404.statusText <:+:
        ("Upstream fetch failed: ".data ++ natToStr up404.status ++ " ".data
          ++ up404.statusText)) ∧
    natToStr up404.status = "404".data :=
  ⟨c7_upstream_failure baseReq w404 up404 "/articles/foo.md".data
    rfl (by decide) (by decide) rfl (by decide), by decide⟩

/-- C8, witness: a `?refresh=1` request against a benign world reads the
store zero times and fetches the origin once. -/
theorem c8_witness :
    ∃ r eff, fetchHandler reqRefresh baseWorld = Outcome.response r eff ∧
      eff.storeGets = 0 ∧ eff.originFetches = 1 :=
  c8_refresh_bypass reqRefresh baseWorld "/articles/foo.md".data rfl (by decide) rfl

/-- The world holding an object with a non-`Date` upload timestamp. -/
def wNoDate : World := { baseWorld with stored := some objNoDate }

/-- C10, witness: the run against a store holding a metadata-less object
equals the run against an empty store, and does not throw. -/
theorem c10_witness :
    fetchHandler baseReq wNoDate = fetchHandler baseReq { wNoDate with stored := none } ∧
    (∀ p, baseReq.pathDecode = some p →
      fetchHandler baseReq wNoDate ≠ Outcome.uncaught) :=
  c10_malformed_metadata baseReq wNoDate objNoDate rfl (Or.inl rfl)

end MdWorker

